import Mathlib

/-!
# Verification of the Ahorcado (hangman) game core

Shallow embedding of `src/funciones.js` and `src/app.js`.

JavaScript strings are modelled as `List Char`; a JS array of strings
(such as the reveal state, whose entries are one-character strings or
the placeholder `"_"`) is a `List (List Char)`.  The DOM-rendering calls
of the source are side-effect-only and are dropped; every state mutation
of the source is kept.
-/

namespace Ahorcado

/-- A JavaScript string. -/
abbrev Str := List Char

/-- Uppercasing of one character as `String.prototype.toUpperCase` performs it
on the alphabet in scope (ASCII letters, `ñ` and the accented vowels accepted
by `validarInput` and occurring in the word lists); characters outside that
alphabet are left unchanged. -/
def jsUpperChar (c : Char) : Char :=
  if c = 'ñ' then 'Ñ'
  else if c = 'á' then 'Á'
  else if c = 'é' then 'É'
  else if c = 'í' then 'Í'
  else if c = 'ó' then 'Ó'
  else if c = 'ú' then 'Ú'
  else c.toUpper

/-- Uppercasing `s.toUpperCase()` of a JS string. -/
def jsUpper (s : Str) : Str := s.map jsUpperChar

/-- Whitespace characters removed by `String.prototype.trim`: the full
ECMA-262 WhiteSpace ∪ LineTerminator set — tab, line feed, vertical tab,
form feed, carriage return, space, no-break space, Ogham space mark, the
Unicode Zs spaces U+2000–U+200A, line separator, paragraph separator,
narrow no-break space, medium mathematical space, ideographic space and
the byte-order mark. -/
def jsWhitespace (c : Char) : Bool :=
  c ∈ ['\t', '\n', '\x0b', '\x0c', '\r', ' ', '\u00A0', '\u1680',
    '\u2000', '\u2001', '\u2002', '\u2003', '\u2004', '\u2005', '\u2006',
    '\u2007', '\u2008', '\u2009', '\u200A', '\u2028', '\u2029', '\u202F',
    '\u205F', '\u3000', '\uFEFF']

/-- Trimming `s.trim()` of a JS string. -/
def jsTrim (s : Str) : Str :=
  ((s.dropWhile jsWhitespace).reverse.dropWhile jsWhitespace).reverse

/-- One entry of the word-list JSON document: `{ "item": ... }`. -/
structure WordEntry where
  item : Str
deriving DecidableEq, Repr

/-- Errors a `funciones.js` call can throw: the explicit
`new Error("Error al cargar el archivo JSON")` on a failed fetch, and the
implicit `TypeError` from reading `.item` of `undefined`. -/
inductive JsError where
  | fetchError
  | typeError
deriving DecidableEq, Repr

/-- Outcome of the external `fetch(archivo)` + `response.json()` round trip:
either the parsed document's `words` list, or any fetch/parse failure. -/
inductive FetchResult where
  | ok (words : List WordEntry)
  | fail
deriving DecidableEq, Repr

/-- Embedding of `cargarPalabras` (funciones.js 11–23): rethrows the fetch/parse failure,
otherwise returns `data.words` as is. -/
def cargarPalabras (fetched : FetchResult) : Except JsError (List WordEntry) :=
  match fetched with
  | .fail => .error .fetchError
  | .ok words => .ok words

/-- Embedding of `obtenerPalabraAleatoria` (funciones.js 30–33).  `indiceAleatorio` stands
for `Math.floor(Math.random() * palabras.length)`; on an empty array that
expression is `0` and `palabras[0].item` throws a `TypeError`, modelled by the
`none` branch of the lookup. -/
def obtenerPalabraAleatoria (palabras : List WordEntry) (indiceAleatorio : Nat) :
    Except JsError Str :=
  match palabras.get? indiceAleatorio with
  | none => .error .typeError
  | some entry => .ok (jsUpper entry.item)

/-- The placeholder entry `"_"` of the reveal state. -/
def placeholder : Str := ['_']

/-- Embedding of `crearGuiones` (funciones.js 40–42): `Array(palabra.length).fill("_")`. -/
def crearGuiones (palabra : Str) : List Str :=
  List.replicate palabra.length placeholder

/-- The `{valido, mensaje}` object returned by `validarInput`. -/
structure Validacion where
  valido : Bool
  mensaje : String
deriving DecidableEq, Repr

/-- The character class `[a-zA-ZñÑáéíóúÁÉÍÓÚ]` of the validation regex. -/
def esLetraPermitida (c : Char) : Bool :=
  ('a' ≤ c && c ≤ 'z') || ('A' ≤ c && c ≤ 'Z') ||
    c ∈ ['ñ', 'Ñ', 'á', 'é', 'í', 'ó', 'ú', 'Á', 'É', 'Í', 'Ó', 'Ú']

/-- The test `/^[a-zA-ZñÑáéíóúÁÉÍÓÚ]$/.test(input)`: exactly one character,
drawn from the accepted class. -/
def esRegexUnaLetra (input : Str) : Bool :=
  match input with
  | [c] => esLetraPermitida c
  | _ => false

/-- Embedding of `validarInput` (funciones.js 49–63). -/
def validarInput (input : Str) : Validacion :=
  if input.isEmpty || (jsTrim input).isEmpty then
    ⟨false, "Por favor, introduce una letra"⟩
  else if input.length > 1 then
    ⟨false, "Solo puedes introducir una letra"⟩
  else if !esRegexUnaLetra input then
    ⟨false, "Solo se permiten letras"⟩
  else
    ⟨true, ""⟩

/-- Embedding of `comprobarLetra` (funciones.js 71–82): the indices `i` with
`palabraSecreta[i] === letra.toUpperCase()`; `palabraSecreta[i]` is the
one-character string at `i`. -/
def comprobarLetra (letra : Str) (palabraSecreta : Str) : List Nat :=
  (List.range palabraSecreta.length).filter
    (fun i => [palabraSecreta.getD i ' '] == jsUpper letra)

/-- Embedding of `revelarLetras` (funciones.js 91–97): copies the array and assigns
`letra.toUpperCase()` at each listed index.  The callers only pass indices
produced by `comprobarLetra`, which are within bounds, where `List.set`
coincides with the JS element assignment. -/
def revelarLetras (letrasDescubiertas : List Str) (letra : Str)
    (indices : List Nat) : List Str :=
  indices.foldl (fun nuevoArray indice => nuevoArray.set indice (jsUpper letra))
    letrasDescubiertas

/-- Embedding of `comprobarVictoria` (funciones.js 104–106): `!letrasDescubiertas.includes("_")`. -/
def comprobarVictoria (letrasDescubiertas : List Str) : Bool :=
  !(letrasDescubiertas.contains placeholder)

/-- The constant `MAX_INTENTOS = 8` (app.js 19). -/
def MAX_INTENTOS : Nat := 8

/-- The round status observable on screen: the result message is hidden
(`InProgress`), or has the `win` class, or has the `lose` class — the two
branches of `finalizarJuego`. -/
inductive RoundStatus where
  | inProgress
  | won
  | lost
deriving DecidableEq, Repr

/-- The module-level game state of app.js (lines 22–28) together with the
displayed round status.  `letrasUsadas` is a JS `Set`; membership is checked
before insertion, so modelling it as the list of insertions keeps set
semantics. -/
structure GameState where
  palabraSecreta : Str
  letrasDescubiertas : List Str
  intentosFallidos : Nat
  juegoTerminado : Bool
  letrasUsadas : List Str
  letrasIncorrectas : List Str
  currentTheme : String
  status : RoundStatus
deriving DecidableEq, Repr

/-- Which exit `procesarLetra` took: the early return on a finished game, the
validation alert, the repeated-letter alert, or the correct/incorrect branch. -/
inductive ResultadoLetra where
  | sinEfecto
  | invalido (mensaje : String)
  | yaUsada
  | acierto
  | fallo
deriving DecidableEq, Repr

/-- Embedding of `finalizarJuego` (app.js 224–263): marks the game finished; on defeat it
also discloses the whole word, `letrasDescubiertas = palabraSecreta.split('')`. -/
def finalizarJuego (s : GameState) (victoria : Bool) : GameState :=
  if victoria then
    { s with juegoTerminado := true, status := .won }
  else
    { s with juegoTerminado := true, status := .lost,
             letrasDescubiertas := s.palabraSecreta.map (fun c => [c]) }

/-- Embedding of `procesarLetra` (app.js 107–173), with the DOM reads/writes dropped.
The typed letter is the parameter `letra`; the returned `ResultadoLetra`
records which branch ran. -/
def procesarLetra (s : GameState) (letra : Str) : GameState × ResultadoLetra :=
  if s.juegoTerminado then (s, .sinEfecto)
  else
    let validacion := validarInput letra
    if !validacion.valido then (s, .invalido validacion.mensaje)
    else
      let letraMayuscula := jsUpper letra
      if letraMayuscula ∈ s.letrasUsadas then (s, .yaUsada)
      else
        let s1 := { s with letrasUsadas := letraMayuscula :: s.letrasUsadas }
        let indices := comprobarLetra letra s1.palabraSecreta
        if 0 < indices.length then
          let s2 := { s1 with
            letrasDescubiertas := revelarLetras s1.letrasDescubiertas letra indices }
          if comprobarVictoria s2.letrasDescubiertas then
            (finalizarJuego s2 true, .acierto)
          else
            (s2, .acierto)
        else
          let s2 := { s1 with
            intentosFallidos := s1.intentosFallidos + 1,
            letrasIncorrectas := s1.letrasIncorrectas ++ [letraMayuscula] }
          if s2.intentosFallidos ≥ MAX_INTENTOS then
            (finalizarJuego s2 false, .fallo)
          else
            (s2, .fallo)

/-- Embedding of `inicializarJuego` (app.js 48–102).  `currentTheme = theme` runs before
the awaited fetch; the `catch` block only shows an error message, leaving the
rest of the state as it was.  `fetched` is the outcome of the external fetch
of the chosen file and `indiceAleatorio` the random index drawn inside
`obtenerPalabraAleatoria`. -/
def inicializarJuego (s : GameState) (theme : String) (fetched : FetchResult)
    (indiceAleatorio : Nat) : GameState :=
  let s0 := { s with currentTheme := theme }
  let _archivo := if theme = "musica" then "words2.json" else "words.json"
  match cargarPalabras fetched with
  | .error _ => s0
  | .ok palabras =>
    match obtenerPalabraAleatoria palabras indiceAleatorio with
    | .error _ => s0
    | .ok palabra =>
      { s0 with
        palabraSecreta := palabra,
        letrasDescubiertas := crearGuiones palabra,
        intentosFallidos := 0,
        juegoTerminado := false,
        letrasUsadas := [],
        letrasIncorrectas := [],
        status := .inProgress }

/-- Runs a sequence of typed letters through `procesarLetra`, keeping only the
state — the driver a play-through of the game performs. -/
def jugar (s : GameState) (letras : List Str) : GameState :=
  letras.foldl (fun st l => (procesarLetra st l).1) s

/-! ## Lemmas about the funciones.js helpers -/

theorem revelarLetras_cons (arr : List Str) (letra : Str) (i : Nat) (t : List Nat) :
    revelarLetras arr letra (i :: t) =
      revelarLetras (arr.set i (jsUpper letra)) letra t := rfl

theorem length_revelarLetras (arr : List Str) (letra : Str) (idxs : List Nat) :
    (revelarLetras arr letra idxs).length = arr.length := by
  induction idxs generalizing arr with
  | nil => rfl
  | cons i t ih => rw [revelarLetras_cons, ih, List.length_set]

theorem getD_revelarLetras (arr : List Str) (letra : Str) (idxs : List Nat)
    (j : Nat) (d : Str) (hj : j < arr.length) :
    (revelarLetras arr letra idxs).getD j d =
      if j ∈ idxs then jsUpper letra else arr.getD j d := by
  induction idxs generalizing arr with
  | nil => simp [revelarLetras]
  | cons i t ih =>
    rw [revelarLetras_cons, ih (arr.set i (jsUpper letra)) (by simpa using hj)]
    by_cases hjt : j ∈ t
    · simp [hjt]
    · simp only [hjt, if_false, List.mem_cons]
      rw [List.getD_eq_getElem?_getD, List.getD_eq_getElem?_getD arr,
        List.getElem?_set]
      by_cases hij : i = j
      · simp [hij, hj]
      · have hji : ¬j = i := fun hh => hij hh.symm
        simp [hij, hji, hjt]

theorem mem_comprobarLetra (letra palabra : Str) (i : Nat) :
    i ∈ comprobarLetra letra palabra ↔
      i < palabra.length ∧ [palabra.getD i ' '] = jsUpper letra := by
  simp [comprobarLetra, List.mem_filter, List.mem_range]

theorem comprobarLetra_eq_nil_iff (letra palabra : Str) :
    comprobarLetra letra palabra = [] ↔
      ∀ i, i < palabra.length → [palabra.getD i ' '] ≠ jsUpper letra := by
  rw [List.eq_nil_iff_forall_not_mem]
  constructor
  · intro h i hi hne
    exact h i ((mem_comprobarLetra letra palabra i).mpr ⟨hi, hne⟩)
  · intro h i hmem
    obtain ⟨hi, heq⟩ := (mem_comprobarLetra letra palabra i).mp hmem
    exact h i hi heq

theorem comprobarVictoria_iff (ld : List Str) :
    comprobarVictoria ld = true ↔ placeholder ∉ ld := by
  simp [comprobarVictoria, List.contains, List.elem_iff]

/-! ## Branch equations for procesarLetra -/

theorem procesarLetra_terminado (s : GameState) (letra : Str)
    (h : s.juegoTerminado = true) :
    procesarLetra s letra = (s, .sinEfecto) := by
  simp [procesarLetra, h]

theorem procesarLetra_invalido (s : GameState) (letra : Str)
    (h : s.juegoTerminado = false) (hv : (validarInput letra).valido = false) :
    procesarLetra s letra = (s, .invalido (validarInput letra).mensaje) := by
  simp [procesarLetra, h, hv]

theorem procesarLetra_yaUsada (s : GameState) (letra : Str)
    (h : s.juegoTerminado = false) (hv : (validarInput letra).valido = true)
    (hu : jsUpper letra ∈ s.letrasUsadas) :
    procesarLetra s letra = (s, .yaUsada) := by
  simp [procesarLetra, h, hv, hu]

theorem procesarLetra_fallo (s : GameState) (letra : Str)
    (h : s.juegoTerminado = false) (hv : (validarInput letra).valido = true)
    (hu : jsUpper letra ∉ s.letrasUsadas)
    (hm : comprobarLetra letra s.palabraSecreta = []) :
    procesarLetra s letra =
      (if s.intentosFallidos + 1 ≥ MAX_INTENTOS then
        { s with letrasUsadas := jsUpper letra :: s.letrasUsadas,
                 intentosFallidos := s.intentosFallidos + 1,
                 letrasIncorrectas := s.letrasIncorrectas ++ [jsUpper letra],
                 juegoTerminado := true, status := .lost,
                 letrasDescubiertas := s.palabraSecreta.map (fun c => [c]) }
       else
        { s with letrasUsadas := jsUpper letra :: s.letrasUsadas,
                 intentosFallidos := s.intentosFallidos + 1,
                 letrasIncorrectas := s.letrasIncorrectas ++ [jsUpper letra] },
       .fallo) := by
  simp only [procesarLetra, h, hv, hu, hm, finalizarJuego]
  by_cases hc : MAX_INTENTOS ≤ s.intentosFallidos + 1 <;> simp [hc]

theorem procesarLetra_acierto (s : GameState) (letra : Str)
    (h : s.juegoTerminado = false) (hv : (validarInput letra).valido = true)
    (hu : jsUpper letra ∉ s.letrasUsadas)
    (hm : comprobarLetra letra s.palabraSecreta ≠ []) :
    procesarLetra s letra =
      (if comprobarVictoria (revelarLetras s.letrasDescubiertas letra
            (comprobarLetra letra s.palabraSecreta)) then
        { s with letrasUsadas := jsUpper letra :: s.letrasUsadas,
                 letrasDescubiertas := revelarLetras s.letrasDescubiertas letra
                   (comprobarLetra letra s.palabraSecreta),
                 juegoTerminado := true, status := .won }
       else
        { s with letrasUsadas := jsUpper letra :: s.letrasUsadas,
                 letrasDescubiertas := revelarLetras s.letrasDescubiertas letra
                   (comprobarLetra letra s.palabraSecreta) },
       .acierto) := by
  have hlen : 0 < (comprobarLetra letra s.palabraSecreta).length :=
    List.length_pos.mpr hm
  simp only [procesarLetra, h, hv, hu, hlen, finalizarJuego]
  by_cases hvic : comprobarVictoria (revelarLetras s.letrasDescubiertas letra
      (comprobarLetra letra s.palabraSecreta)) = true <;>
    simp [hvic]

/-! ## The round invariant

Every state produced by a successful `inicializarJuego` and preserved by
`procesarLetra`: the reveal state has the word's length; while the round is
unfinished at most 7 attempts have failed, the status is `inProgress`, and
each position shows its letter exactly when that letter has been guessed. -/

def Inv (s : GameState) : Prop :=
  s.letrasDescubiertas.length = s.palabraSecreta.length ∧
  (s.juegoTerminado = false → s.intentosFallidos < MAX_INTENTOS) ∧
  (s.juegoTerminado = false → s.status = .inProgress) ∧
  (s.juegoTerminado = false → ∀ i, i < s.letrasDescubiertas.length →
    s.letrasDescubiertas.getD i placeholder =
      if [s.palabraSecreta.getD i ' '] ∈ s.letrasUsadas then
        [s.palabraSecreta.getD i ' ']
      else placeholder)

instance (s : GameState) : Decidable (Inv s) := by
  unfold Inv; infer_instance

theorem Inv_inicializarJuego (s : GameState) (theme : String)
    (ws : List WordEntry) (idx : Nat) (h : idx < ws.length) :
    Inv (inicializarJuego s theme (.ok ws) idx) := by
  obtain ⟨entry, hentry⟩ : ∃ e, ws.get? idx = some e :=
    ⟨ws.get ⟨idx, h⟩, List.get?_eq_get h⟩
  simp only [inicializarJuego, cargarPalabras, obtenerPalabraAleatoria, hentry]
  refine ⟨by simp [crearGuiones], by simp [MAX_INTENTOS], by simp, ?_⟩
  intro _ i hi
  simp only [crearGuiones, List.length_replicate] at hi
  simp [crearGuiones, List.getD_eq_getElem?_getD, List.getElem?_replicate, hi]

theorem reveal_if_of_ne (w v : Str) (used : List Str) (hne : w ≠ v) :
    (if w ∈ used then w else placeholder) =
      if w = v ∨ w ∈ used then w else placeholder := by
  by_cases hm : w ∈ used <;> simp [hm, hne]

theorem Inv_procesarLetra (s : GameState) (letra : Str) (hInv : Inv s) :
    Inv (procesarLetra s letra).1 := by
  obtain ⟨h1, h2, h3, h4⟩ := hInv
  by_cases hterm : s.juegoTerminado = true
  · rw [procesarLetra_terminado s letra hterm]; exact ⟨h1, h2, h3, h4⟩
  · have hterm' : s.juegoTerminado = false := by
      revert hterm; cases s.juegoTerminado <;> simp
    by_cases hval : (validarInput letra).valido = true
    · by_cases husa : jsUpper letra ∈ s.letrasUsadas
      · rw [procesarLetra_yaUsada s letra hterm' hval husa]
        exact ⟨h1, h2, h3, h4⟩
      · by_cases hm : comprobarLetra letra s.palabraSecreta = []
        · -- incorrect guess
          rw [procesarLetra_fallo s letra hterm' hval husa hm]
          by_cases hc : MAX_INTENTOS ≤ s.intentosFallidos + 1
          · simp only [ge_iff_le, if_pos hc]
            exact ⟨by simp [h1], by simp, by simp, by simp⟩
          · simp only [ge_iff_le, if_neg hc]
            refine ⟨h1, fun _ => ?_, fun _ => h3 hterm', fun _ i hi => ?_⟩
            · show s.intentosFallidos + 1 < MAX_INTENTOS
              omega
            · have hi' : i < s.letrasDescubiertas.length := hi
              have hip : i < s.palabraSecreta.length := h1 ▸ hi'
              have hne : [s.palabraSecreta.getD i ' '] ≠ jsUpper letra :=
                (comprobarLetra_eq_nil_iff letra s.palabraSecreta).mp hm i hip
              show s.letrasDescubiertas.getD i placeholder =
                if [s.palabraSecreta.getD i ' '] ∈ jsUpper letra :: s.letrasUsadas
                then [s.palabraSecreta.getD i ' '] else placeholder
              rw [h4 hterm' i hi']
              simp only [List.mem_cons]
              exact reveal_if_of_ne _ _ _ hne
        · -- correct guess
          rw [procesarLetra_acierto s letra hterm' hval husa hm]
          have hrevlen : (revelarLetras s.letrasDescubiertas letra
              (comprobarLetra letra s.palabraSecreta)).length =
              s.letrasDescubiertas.length :=
            length_revelarLetras _ _ _
          by_cases hvic : comprobarVictoria (revelarLetras s.letrasDescubiertas letra
              (comprobarLetra letra s.palabraSecreta)) = true
          · simp only [if_pos hvic]
            exact ⟨by simp [hrevlen, h1], by simp, by simp, by simp⟩
          · simp only [if_neg hvic]
            refine ⟨by simp [hrevlen, h1], fun _ => h2 hterm',
              fun _ => h3 hterm', fun _ i hi => ?_⟩
            have hi0 : i < (revelarLetras s.letrasDescubiertas letra
                (comprobarLetra letra s.palabraSecreta)).length := hi
            have hi' : i < s.letrasDescubiertas.length := hrevlen ▸ hi0
            have hip : i < s.palabraSecreta.length := h1 ▸ hi'
            show (revelarLetras s.letrasDescubiertas letra
                (comprobarLetra letra s.palabraSecreta)).getD i placeholder =
              if [s.palabraSecreta.getD i ' '] ∈ jsUpper letra :: s.letrasUsadas
              then [s.palabraSecreta.getD i ' '] else placeholder
            rw [getD_revelarLetras s.letrasDescubiertas letra _ i placeholder hi']
            by_cases hidx : i ∈ comprobarLetra letra s.palabraSecreta
            · obtain ⟨-, heq⟩ := (mem_comprobarLetra letra s.palabraSecreta i).mp hidx
              rw [if_pos hidx]
              simp only [List.mem_cons]
              rw [if_pos (Or.inl heq)]
              exact heq.symm
            · have hne : [s.palabraSecreta.getD i ' '] ≠ jsUpper letra := by
                intro heq
                exact hidx ((mem_comprobarLetra letra s.palabraSecreta i).mpr ⟨hip, heq⟩)
              rw [if_neg hidx, h4 hterm' i hi']
              simp only [List.mem_cons]
              exact reveal_if_of_ne _ _ _ hne
    · have hval' : (validarInput letra).valido = false := by
        revert hval; cases (validarInput letra).valido <;> simp
      rw [procesarLetra_invalido s letra hterm' hval']
      exact ⟨h1, h2, h3, h4⟩

/-- Lemma: `procesarLetra` keeps the reveal state exactly as long as the secret
word, whatever branch it takes. -/
theorem longitud_procesarLetra (s : GameState) (letra : Str)
    (hlen : s.letrasDescubiertas.length = s.palabraSecreta.length) :
    (procesarLetra s letra).1.letrasDescubiertas.length =
      (procesarLetra s letra).1.palabraSecreta.length := by
  by_cases hterm : s.juegoTerminado = true
  · rw [procesarLetra_terminado s letra hterm]; exact hlen
  · have hterm' : s.juegoTerminado = false := by
      revert hterm; cases s.juegoTerminado <;> simp
    by_cases hval : (validarInput letra).valido = true
    · by_cases husa : jsUpper letra ∈ s.letrasUsadas
      · rw [procesarLetra_yaUsada s letra hterm' hval husa]; exact hlen
      · by_cases hm : comprobarLetra letra s.palabraSecreta = []
        · rw [procesarLetra_fallo s letra hterm' hval husa hm]
          by_cases hc : MAX_INTENTOS ≤ s.intentosFallidos + 1 <;>
            simp [hc, hlen]
        · rw [procesarLetra_acierto s letra hterm' hval husa hm]
          by_cases hvic : comprobarVictoria (revelarLetras s.letrasDescubiertas
              letra (comprobarLetra letra s.palabraSecreta)) = true <;>
            simp [hvic, length_revelarLetras, hlen]
    · have hval' : (validarInput letra).valido = false := by
        revert hval; cases (validarInput letra).valido <;> simp
      rw [procesarLetra_invalido s letra hterm' hval']
      exact hlen

/-! ## Concrete play-throughs used as witnesses and counterexamples -/

/-- A state standing for whatever was on screen before a round starts. -/
def estadoAnterior : GameState :=
  ⟨[], [], 0, true, [], [], "general", .inProgress⟩

/-- A one-word corpus whose entry is the lowercase `"sol"`. -/
def corpusSOL : List WordEntry := [⟨['s', 'o', 'l']⟩]

/-- A freshly started round with secret word `"SOL"`. -/
def estadoSOL : GameState :=
  inicializarJuego estadoAnterior ("general") (.ok corpusSOL) 0

/-- Seven distinct letters, none of them in `"SOL"`. -/
def sieteFallos : List Str :=
  [['b'], ['c'], ['d'], ['f'], ['g'], ['h'], ['j']]

/-- The round on `"SOL"` after seven incorrect guesses: one failed attempt
away from the loss. -/
def estadoSOL7 : GameState := jugar estadoSOL sieteFallos

/-! ## The claims -/

/-- C2: for every round, the reveal state has exactly the secret word's
length immediately after a successful `start()` (first conjunct) and after
every `guess()` call, including the one that ends the round (second
conjunct, for any state already satisfying the length invariant). -/
theorem spec_C2 (s sPre : GameState) (theme : String) (ws : List WordEntry)
    (idx : Nat) (letra : Str) (hidx : idx < ws.length)
    (hlen : sPre.letrasDescubiertas.length = sPre.palabraSecreta.length) :
    ((inicializarJuego s theme (.ok ws) idx).letrasDescubiertas.length =
      (inicializarJuego s theme (.ok ws) idx).palabraSecreta.length) ∧
    ((procesarLetra sPre letra).1.letrasDescubiertas.length =
      (procesarLetra sPre letra).1.palabraSecreta.length) :=
  ⟨(Inv_inicializarJuego s theme ws idx hidx).1,
   longitud_procesarLetra sPre letra hlen⟩

/-- Witness for C2: the round on `"SOL"`, and a guess from the
seven-failures state. -/
theorem spec_C2_witness :
    ((inicializarJuego estadoAnterior ("general")
        (.ok corpusSOL) 0).letrasDescubiertas.length =
      (inicializarJuego estadoAnterior ("general")
        (.ok corpusSOL) 0).palabraSecreta.length) ∧
    ((procesarLetra estadoSOL7 ['o']).1.letrasDescubiertas.length =
      (procesarLetra estadoSOL7 ['o']).1.palabraSecreta.length) :=
  spec_C2 estadoAnterior estadoSOL7 ("general") corpusSOL 0 ['o']
    (by decide) (by decide)

/-- C3 counterexample: the eighth incorrect guess (here `'k'` on `"SOL"`
after seven failures) finds zero occurrences, yet the reveal state changes —
the loss handler discloses the full word.  The claim's
"RevealState is unchanged" is false for this guess. -/
theorem spec_C3_counterexample :
    comprobarLetra ['k'] estadoSOL7.palabraSecreta = [] ∧
    (procesarLetra estadoSOL7 ['k']).1.intentosFallidos =
      estadoSOL7.intentosFallidos + 1 ∧
    (procesarLetra estadoSOL7 ['k']).1.letrasDescubiertas ≠
      estadoSOL7.letrasDescubiertas := by decide

/-- C3 as amended: a counting guess that finds zero occurrences raises the
attempt counter by exactly 1; the reveal state is unchanged unless that
increment reaches the maximum, in which case it becomes the fully disclosed
secret word. -/
theorem spec_C3 (s : GameState) (letra : Str)
    (hterm : s.juegoTerminado = false)
    (hval : (validarInput letra).valido = true)
    (hnueva : jsUpper letra ∉ s.letrasUsadas)
    (hcero : comprobarLetra letra s.palabraSecreta = []) :
    (procesarLetra s letra).1.intentosFallidos = s.intentosFallidos + 1 ∧
    (procesarLetra s letra).1.letrasDescubiertas =
      (if MAX_INTENTOS ≤ s.intentosFallidos + 1 then
        s.palabraSecreta.map (fun c => [c])
      else s.letrasDescubiertas) := by
  rw [procesarLetra_fallo s letra hterm hval hnueva hcero]
  by_cases hc : MAX_INTENTOS ≤ s.intentosFallidos + 1 <;> simp [hc]

/-- Witness for C3: the harmless first incorrect guess `'z'` on `"SOL"`. -/
theorem spec_C3_witness :
    (procesarLetra estadoSOL ['z']).1.intentosFallidos =
      estadoSOL.intentosFallidos + 1 ∧
    (procesarLetra estadoSOL ['z']).1.letrasDescubiertas =
      (if MAX_INTENTOS ≤ estadoSOL.intentosFallidos + 1 then
        estadoSOL.palabraSecreta.map (fun c => [c])
      else estadoSOL.letrasDescubiertas) :=
  spec_C3 estadoSOL ['z'] (by decide) (by decide) (by decide) (by decide)

/-- C5: a letter guessed a second time in the same still-running round makes
the second call fail with the already-used alert and leave every component of
the state untouched (the returned state is the input state itself). -/
theorem spec_C5 (s : GameState) (letra : Str)
    (hterm : s.juegoTerminado = false)
    (hval : (validarInput letra).valido = true)
    (hterm1 : (procesarLetra s letra).1.juegoTerminado = false) :
    procesarLetra (procesarLetra s letra).1 letra =
      ((procesarLetra s letra).1, .yaUsada) := by
  have hmem : jsUpper letra ∈ (procesarLetra s letra).1.letrasUsadas := by
    by_cases husa : jsUpper letra ∈ s.letrasUsadas
    · rw [procesarLetra_yaUsada s letra hterm hval husa]; exact husa
    · by_cases hm : comprobarLetra letra s.palabraSecreta = []
      · rw [procesarLetra_fallo s letra hterm hval husa hm]
        by_cases hc : MAX_INTENTOS ≤ s.intentosFallidos + 1 <;> simp [hc]
      · rw [procesarLetra_acierto s letra hterm hval husa hm]
        by_cases hvic : comprobarVictoria (revelarLetras s.letrasDescubiertas
            letra (comprobarLetra letra s.palabraSecreta)) = true <;>
          simp [hvic]
  exact procesarLetra_yaUsada _ letra hterm1 hval hmem

/-- Witness for C5: guessing `'s'` twice on the fresh `"SOL"` round. -/
theorem spec_C5_witness :
    procesarLetra (procesarLetra estadoSOL ['s']).1 ['s'] =
      ((procesarLetra estadoSOL ['s']).1, .yaUsada) :=
  spec_C5 estadoSOL ['s'] (by decide) (by decide) (by decide)

/-- C6: the counting guess that brings the attempt counter to the maximum
sets the status to Lost and replaces the reveal state by the full secret
word, character by character. -/
theorem spec_C6 (s : GameState) (letra : Str)
    (hterm : s.juegoTerminado = false)
    (hval : (validarInput letra).valido = true)
    (hnueva : jsUpper letra ∉ s.letrasUsadas)
    (hcero : comprobarLetra letra s.palabraSecreta = [])
    (hocho : s.intentosFallidos + 1 = MAX_INTENTOS) :
    (procesarLetra s letra).1.status = .lost ∧
    (procesarLetra s letra).1.juegoTerminado = true ∧
    (procesarLetra s letra).1.intentosFallidos = MAX_INTENTOS ∧
    (procesarLetra s letra).1.letrasDescubiertas =
      s.palabraSecreta.map (fun c => [c]) := by
  rw [procesarLetra_fallo s letra hterm hval hnueva hcero]
  have hc : MAX_INTENTOS ≤ s.intentosFallidos + 1 := le_of_eq hocho.symm
  simp [hc, hocho]

/-- Witness for C6: the eighth incorrect guess `'k'` on `"SOL"`. -/
theorem spec_C6_witness :
    (procesarLetra estadoSOL7 ['k']).1.status = .lost ∧
    (procesarLetra estadoSOL7 ['k']).1.juegoTerminado = true ∧
    (procesarLetra estadoSOL7 ['k']).1.intentosFallidos = MAX_INTENTOS ∧
    (procesarLetra estadoSOL7 ['k']).1.letrasDescubiertas =
      estadoSOL7.palabraSecreta.map (fun c => [c]) :=
  spec_C6 estadoSOL7 ['k'] (by decide) (by decide) (by decide)
    (by decide) (by decide)

/-- C7 counterexample: `inicializarJuego` assigns `currentTheme = theme`
before awaiting the fetch, so a failed `start()` does change the previously
active round's theme — here from `"general"` to `"musica"`. -/
theorem spec_C7_counterexample :
    estadoSOL.currentTheme = "general" ∧
    (inicializarJuego estadoSOL ("musica") .fail 0).currentTheme = "musica" ∧
    (inicializarJuego estadoSOL ("musica") .fail 0).currentTheme ≠
      estadoSOL.currentTheme := by decide

/-- C7 as amended: when `start()` fails — the fetch fails, or the random
lookup throws because the word list is empty — the previous round's secret
word, reveal state, guessed letters, attempt counter, status flags and
incorrect-letter list are all left unchanged and queryable; only
`currentTheme` has already been overwritten with the requested theme. -/
theorem spec_C7 (s : GameState) (theme : String) (ws : List WordEntry)
    (idx : Nat) (hnone : ws.get? idx = none) :
    inicializarJuego s theme .fail idx = { s with currentTheme := theme } ∧
    inicializarJuego s theme (.ok ws) idx = { s with currentTheme := theme } := by
  constructor
  · rfl
  · have hnone' : ws[idx]? = none := by
      rw [← List.get?_eq_getElem?]; exact hnone
    simp [inicializarJuego, cargarPalabras, obtenerPalabraAleatoria, hnone']

/-- Witness for C7: a failed restart with theme `"musica"` over the active
`"SOL"` round, with a fetch failure and with an empty corpus. -/
theorem spec_C7_witness :
    inicializarJuego estadoSOL ("musica") .fail 0 =
      { estadoSOL with currentTheme := "musica" } ∧
    inicializarJuego estadoSOL ("musica") (.ok []) 0 =
      { estadoSOL with currentTheme := "musica" } :=
  spec_C7 estadoSOL ("musica") [] 0 (by decide)

/-- C8 counterexample: `cargarPalabras` applied to a successfully fetched
document whose word list is empty returns that empty list with no error at
all — there is no EmptyCorpus check in the loader. -/
theorem spec_C8_counterexample :
    cargarPalabras (.ok []) = .ok [] ∧
    cargarPalabras (.ok []) ≠ .error .fetchError ∧
    cargarPalabras (.ok []) ≠ .error .typeError :=
  ⟨rfl, fun h => Except.noConfusion h, fun h => Except.noConfusion h⟩

/-- C8 as amended: the loader passes the parsed word list through even when
it is empty; emptiness only surfaces in `obtenerPalabraAleatoria`, which on
an empty corpus throws the `TypeError` of reading `.item` of `undefined` — a
failure rather than a silently returned undefined value, but a generic error,
not a dedicated EmptyCorpus one; on a non-empty corpus with the drawn index
in range it returns the uppercase normalization of the drawn entry's text. -/
theorem spec_C8 (ws : List WordEntry) (i j : Nat) (hi : i < ws.length) :
    cargarPalabras (.ok ws) = .ok ws ∧
    obtenerPalabraAleatoria [] j = .error .typeError ∧
    obtenerPalabraAleatoria ws i = .ok (jsUpper (ws.get ⟨i, hi⟩).item) := by
  refine ⟨rfl, rfl, ?_⟩
  simp [obtenerPalabraAleatoria, List.get?_eq_get hi,
    List.getElem?_eq_getElem hi]

/-- Witness for C8: the one-entry corpus `["sol"]`, index 0 in range and the
out-of-range draw 5 on the empty corpus. -/
theorem spec_C8_witness :
    cargarPalabras (.ok corpusSOL) = .ok corpusSOL ∧
    obtenerPalabraAleatoria [] 5 = .error .typeError ∧
    obtenerPalabraAleatoria corpusSOL 0 =
      .ok (jsUpper (corpusSOL.get ⟨0, by decide⟩).item) :=
  spec_C8 corpusSOL 0 5 (by decide)

/-- C10: `revelarLetras` is pure — it builds a fresh list, so its input is
unchanged by the call — and in its result every listed index holds the
uppercased letter while every position outside the index list keeps exactly
the value it had in the input (revealed letters are never reverted to
placeholders); the length is preserved.  The index-in-bounds hypothesis marks
the domain on which the embedding matches the JS array write, and is the one
`comprobarLetra` always supplies. -/
theorem spec_C10 (arr : List Str) (letra : Str) (indices : List Nat) (j : Nat)
    (_hrange : ∀ i ∈ indices, i < arr.length) (hj : j < arr.length) :
    (revelarLetras arr letra indices).length = arr.length ∧
    (revelarLetras arr letra indices).getD j placeholder =
      (if j ∈ indices then jsUpper letra else arr.getD j placeholder) :=
  ⟨length_revelarLetras arr letra indices,
   getD_revelarLetras arr letra indices j placeholder hj⟩

/-- Witness for C10: revealing `'b'` at index 0 of a two-slot reveal state,
observing slot 1 untouched via a second instantiation at index 0. -/
theorem spec_C10_witness :
    (revelarLetras [['_'], ['A']] ['b'] [0]).length = 2 ∧
    (revelarLetras [['_'], ['A']] ['b'] [0]).getD 1 placeholder =
      (if 1 ∈ [0] then jsUpper ['b'] else [['_'], ['A']].getD 1 placeholder) := by
  have h := spec_C10 [['_'], ['A']] ['b'] [0] 1 (by decide) (by decide)
  exact ⟨h.1, h.2⟩

/-- C4: a counting guess whose letter occurs at one or more positions leaves
the attempt counter unchanged (one guess never costs an increment however
many occurrences it reveals), keeps the reveal-state length, and flips all
and only the matching positions: each was a placeholder before the guess and
holds the case-normalized letter afterwards, while every non-matching
position is untouched. -/
theorem spec_C4 (s : GameState) (letra : Str) (i : Nat) (hInv : Inv s)
    (hterm : s.juegoTerminado = false)
    (hval : (validarInput letra).valido = true)
    (hnueva : jsUpper letra ∉ s.letrasUsadas)
    (hhit : comprobarLetra letra s.palabraSecreta ≠ [])
    (hi : i < s.letrasDescubiertas.length) :
    (procesarLetra s letra).1.intentosFallidos = s.intentosFallidos ∧
    (procesarLetra s letra).1.letrasDescubiertas.length =
      s.letrasDescubiertas.length ∧
    (i ∈ comprobarLetra letra s.palabraSecreta →
      s.letrasDescubiertas.getD i placeholder = placeholder ∧
      (procesarLetra s letra).1.letrasDescubiertas.getD i placeholder =
        jsUpper letra) ∧
    (i ∉ comprobarLetra letra s.palabraSecreta →
      (procesarLetra s letra).1.letrasDescubiertas.getD i placeholder =
        s.letrasDescubiertas.getD i placeholder) := by
  obtain ⟨h1, h2, h3, h4⟩ := hInv
  have hlen := length_revelarLetras s.letrasDescubiertas letra
    (comprobarLetra letra s.palabraSecreta)
  have hpre : i ∈ comprobarLetra letra s.palabraSecreta →
      s.letrasDescubiertas.getD i placeholder = placeholder := by
    intro hidx
    obtain ⟨-, heq⟩ := (mem_comprobarLetra letra s.palabraSecreta i).mp hidx
    rw [h4 hterm i hi, heq, if_neg hnueva]
  have hin : i ∈ comprobarLetra letra s.palabraSecreta →
      (revelarLetras s.letrasDescubiertas letra
        (comprobarLetra letra s.palabraSecreta)).getD i placeholder =
        jsUpper letra := by
    intro hidx
    rw [getD_revelarLetras s.letrasDescubiertas letra _ i placeholder hi,
      if_pos hidx]
  have hout : i ∉ comprobarLetra letra s.palabraSecreta →
      (revelarLetras s.letrasDescubiertas letra
        (comprobarLetra letra s.palabraSecreta)).getD i placeholder =
        s.letrasDescubiertas.getD i placeholder := by
    intro hidx
    rw [getD_revelarLetras s.letrasDescubiertas letra _ i placeholder hi,
      if_neg hidx]
  rw [procesarLetra_acierto s letra hterm hval hnueva hhit]
  by_cases hvic : comprobarVictoria (revelarLetras s.letrasDescubiertas letra
      (comprobarLetra letra s.palabraSecreta)) = true
  · rw [if_pos hvic]
    exact ⟨rfl, hlen, fun hidx => ⟨hpre hidx, hin hidx⟩, hout⟩
  · rw [if_neg hvic]
    exact ⟨rfl, hlen, fun hidx => ⟨hpre hidx, hin hidx⟩, hout⟩

/-- Witness for C4: guessing `'o'` on the fresh `"SOL"` round, observed at
position 1, the only occurrence of `O`. -/
theorem spec_C4_witness :
    (procesarLetra estadoSOL ['o']).1.intentosFallidos =
      estadoSOL.intentosFallidos ∧
    (procesarLetra estadoSOL ['o']).1.letrasDescubiertas.length =
      estadoSOL.letrasDescubiertas.length ∧
    (1 ∈ comprobarLetra ['o'] estadoSOL.palabraSecreta →
      estadoSOL.letrasDescubiertas.getD 1 placeholder = placeholder ∧
      (procesarLetra estadoSOL ['o']).1.letrasDescubiertas.getD 1 placeholder =
        jsUpper ['o']) ∧
    (1 ∉ comprobarLetra ['o'] estadoSOL.palabraSecreta →
      (procesarLetra estadoSOL ['o']).1.letrasDescubiertas.getD 1 placeholder =
        estadoSOL.letrasDescubiertas.getD 1 placeholder) :=
  spec_C4 estadoSOL ['o'] 1 (by decide) (by decide) (by decide) (by decide)
    (by decide) (by decide)

/-- C1 counterexample: after the eighth incorrect guess on `"SOL"` the round
is Lost and, because the loss handler disclosed the whole word, the reveal
state contains no placeholder — so "RoundStatus becomes Won if and only if
RevealState contains no remaining placeholder" is false at this guess. -/
theorem spec_C1_counterexample :
    (jugar estadoSOL (sieteFallos ++ [['k']])).status = .lost ∧
    placeholder ∉ (jugar estadoSOL (sieteFallos ++ [['k']])).letrasDescubiertas ∧
    ¬((jugar estadoSOL (sieteFallos ++ [['k']])).status = .won ↔
      placeholder ∉
        (jugar estadoSOL (sieteFallos ++ [['k']])).letrasDescubiertas) := by
  decide

/-- C1 as amended: after a counting guess from a running round, the status is
Won iff the attempt counter is unchanged (the guess was correct) and the
reveal state has no placeholder left; the status is Lost iff the counter has
reached the maximum of 8, so exactly the 8th incorrect guess loses; Won and
Lost exclude each other; and once the round is finished a further call is a
no-op returning the state unchanged. -/
theorem spec_C1 (s : GameState) (letra letra2 : Str) (hInv : Inv s)
    (hterm : s.juegoTerminado = false)
    (hval : (validarInput letra).valido = true)
    (hnueva : jsUpper letra ∉ s.letrasUsadas) :
    ((procesarLetra s letra).1.status = .won ↔
      ((procesarLetra s letra).1.intentosFallidos = s.intentosFallidos ∧
        placeholder ∉ (procesarLetra s letra).1.letrasDescubiertas)) ∧
    ((procesarLetra s letra).1.status = .lost ↔
      (procesarLetra s letra).1.intentosFallidos = MAX_INTENTOS) ∧
    ¬((procesarLetra s letra).1.status = .won ∧
      (procesarLetra s letra).1.status = .lost) ∧
    ((procesarLetra s letra).1.status ≠ .inProgress →
      procesarLetra (procesarLetra s letra).1 letra2 =
        ((procesarLetra s letra).1, .sinEfecto)) := by
  obtain ⟨h1, h2, h3, h4⟩ := hInv
  have hlt : s.intentosFallidos < MAX_INTENTOS := h2 hterm
  have hpro : s.status = .inProgress := h3 hterm
  have hterminal : (procesarLetra s letra).1.status ≠ .inProgress →
      procesarLetra (procesarLetra s letra).1 letra2 =
        ((procesarLetra s letra).1, .sinEfecto) := by
    intro hne
    obtain ⟨-, -, k3, -⟩ := Inv_procesarLetra s letra ⟨h1, h2, h3, h4⟩
    have hdone : (procesarLetra s letra).1.juegoTerminado = true := by
      by_contra hnd
      have : (procesarLetra s letra).1.juegoTerminado = false := by
        revert hnd; cases (procesarLetra s letra).1.juegoTerminado <;> simp
      exact hne (k3 this)
    exact procesarLetra_terminado _ letra2 hdone
  refine ⟨?_, ?_, ?_, hterminal⟩
  · by_cases hm : comprobarLetra letra s.palabraSecreta = []
    · rw [procesarLetra_fallo s letra hterm hval hnueva hm]
      by_cases hc : MAX_INTENTOS ≤ s.intentosFallidos + 1 <;> simp [hc, hpro]
    · rw [procesarLetra_acierto s letra hterm hval hnueva hm]
      by_cases hvic : comprobarVictoria (revelarLetras s.letrasDescubiertas
          letra (comprobarLetra letra s.palabraSecreta)) = true
      · simp [hvic, hpro]
        exact (comprobarVictoria_iff _).mp hvic
      · simp [hvic, hpro]
        by_contra hnp
        exact hvic ((comprobarVictoria_iff _).mpr hnp)
  · by_cases hm : comprobarLetra letra s.palabraSecreta = []
    · rw [procesarLetra_fallo s letra hterm hval hnueva hm]
      by_cases hc : MAX_INTENTOS ≤ s.intentosFallidos + 1 <;>
        simp [hc, hpro] <;> omega
    · rw [procesarLetra_acierto s letra hterm hval hnueva hm]
      by_cases hvic : comprobarVictoria (revelarLetras s.letrasDescubiertas
          letra (comprobarLetra letra s.palabraSecreta)) = true <;>
        simp [hvic, hpro] <;> omega
  · by_cases hm : comprobarLetra letra s.palabraSecreta = []
    · rw [procesarLetra_fallo s letra hterm hval hnueva hm]
      by_cases hc : MAX_INTENTOS ≤ s.intentosFallidos + 1 <;> simp [hc, hpro]
    · rw [procesarLetra_acierto s letra hterm hval hnueva hm]
      by_cases hvic : comprobarVictoria (revelarLetras s.letrasDescubiertas
          letra (comprobarLetra letra s.palabraSecreta)) = true <;>
        simp [hvic, hpro]

/-- Witness for C1: the correct first guess `'s'` on the fresh `"SOL"`
round, with `'o'` as the follow-up letter for the terminal clause. -/
theorem spec_C1_witness :
    ((procesarLetra estadoSOL ['s']).1.status = .won ↔
      ((procesarLetra estadoSOL ['s']).1.intentosFallidos =
          estadoSOL.intentosFallidos ∧
        placeholder ∉ (procesarLetra estadoSOL ['s']).1.letrasDescubiertas)) ∧
    ((procesarLetra estadoSOL ['s']).1.status = .lost ↔
      (procesarLetra estadoSOL ['s']).1.intentosFallidos = MAX_INTENTOS) ∧
    ¬((procesarLetra estadoSOL ['s']).1.status = .won ∧
      (procesarLetra estadoSOL ['s']).1.status = .lost) ∧
    ((procesarLetra estadoSOL ['s']).1.status ≠ .inProgress →
      procesarLetra (procesarLetra estadoSOL ['s']).1 ['o'] =
        ((procesarLetra estadoSOL ['s']).1, .sinEfecto)) :=
  spec_C1 estadoSOL ['s'] ['o'] (by decide) (by decide) (by decide) (by decide)

/-- A character accepted by the validation regex is never trim-whitespace. -/
theorem esLetraPermitida_no_blanca (c : Char)
    (h : esLetraPermitida c = true) : jsWhitespace c = false := by
  by_contra hws
  have hws' : jsWhitespace c = true := by
    revert hws; cases jsWhitespace c <;> simp
  unfold jsWhitespace at hws'
  have hmem := of_decide_eq_true hws'
  fin_cases hmem <;> exact absurd h (by decide)

/-- C9 counterexample: the single space is one character outside the accepted
alphabet, yet `validarInput` classifies it with the Empty message (the input
is trimmed first), not the DisallowedCharacter one. -/
theorem spec_C9_counterexample :
    esLetraPermitida ' ' = false ∧
    validarInput [' '] = ⟨false, "Por favor, introduce una letra"⟩ ∧
    (validarInput [' ']).mensaje ≠ "Solo se permiten letras" := by decide

/-- C9 as amended: `validarInput` is pure and classifies inputs with three
distinct messages — empty input (and whitespace-only input, which is trimmed
away) with the Empty message; longer-than-one input with the TooLong message
unless it is all whitespace; a single non-whitespace character with the Valid
outcome when it is in the accepted alphabet and the DisallowedCharacter
message otherwise; in particular `"5"` is disallowed and `"ab"` too long. -/
theorem spec_C9 (c d : Char) (rest : Str) :
    validarInput [] = ⟨false, "Por favor, introduce una letra"⟩ ∧
    validarInput [c] =
      (if jsWhitespace c then ⟨false, "Por favor, introduce una letra"⟩
       else if esLetraPermitida c then ⟨true, ""⟩
       else ⟨false, "Solo se permiten letras"⟩) ∧
    validarInput (c :: d :: rest) =
      (if (jsTrim (c :: d :: rest)).isEmpty then
        ⟨false, "Por favor, introduce una letra"⟩
       else ⟨false, "Solo puedes introducir una letra"⟩) ∧
    validarInput ['5'] = ⟨false, "Solo se permiten letras"⟩ ∧
    validarInput ['a', 'b'] = ⟨false, "Solo puedes introducir una letra"⟩ ∧
    ("Por favor, introduce una letra" ≠ "Solo puedes introducir una letra" ∧
      "Por favor, introduce una letra" ≠ "Solo se permiten letras" ∧
      "Solo puedes introducir una letra" ≠ "Solo se permiten letras") := by
  refine ⟨by decide, ?_, ?_, by decide, by decide, by decide⟩
  · by_cases hws : jsWhitespace c = true
    · have htrim : jsTrim [c] = [] := by simp [jsTrim, hws]
      simp [validarInput, htrim, hws]
    · have hws' : jsWhitespace c = false := by
        revert hws; cases jsWhitespace c <;> simp
      have htrim : jsTrim [c] = [c] := by simp [jsTrim, hws']
      by_cases hperm : esLetraPermitida c = true <;>
        simp [validarInput, htrim, hws', esRegexUnaLetra, *]
  · by_cases htr : (jsTrim (c :: d :: rest)).isEmpty = true <;>
      simp [validarInput, htr]

end Ahorcado
